import Mathlib

/-!
Verification of the Starboyleague batch stat server (`src/server.js`).

The server normalizes loosely-typed FotMob player blobs into fixed
`FantasyStat` records (`toFantasyStat`) and resolves a batch of player
names against a remote provider, one name at a time, with per-name
try/catch isolation (`player-stats-batch` handler).

The embedding models JavaScript values (`JSVal`, including `undefined`,
`null` and `NaN`), property access (strict access, which throws a
TypeError on nullish bases, and optional chaining, which does not),
truthiness, the `||` operator, integer arithmetic with `NaN`
propagation, string conversion, object-key assignment, and the provider
as a pair of fallible functions.  The numeric domain is the integers:
the upstream season aggregates carry integer counts, and none of the
verified properties depend on non-integer floating-point values.
-/

/-- A JavaScript value, as far as `server.js` can observe one.
`vundefined` is `undefined`, `vnan` is the number `NaN`; other numbers are
modelled as integers.  Objects are association lists with distinct keys
(a JavaScript object cannot hold a duplicate key). -/
inductive JSVal where
  | vundefined
  | vnull
  | vbool (b : Bool)
  | vnum (n : Int)
  | vnan
  | vstr (s : String)
  | varr (elems : List JSVal)
  | vobj (fields : List (String × JSVal))

open JSVal

mutual
/-- Boolean equality on `JSVal` (the derive handler does not support
this nested inductive, so the instance is built by hand below). -/
def jsvalBeq : JSVal → JSVal → Bool
  | .vundefined, .vundefined => true
  | .vnull, .vnull => true
  | .vbool x, .vbool y => x == y
  | .vnum x, .vnum y => x == y
  | .vnan, .vnan => true
  | .vstr x, .vstr y => x == y
  | .varr xs, .varr ys => jsvalBeqList xs ys
  | .vobj xs, .vobj ys => jsvalBeqFields xs ys
  | _, _ => false

/-- Elementwise `jsvalBeq` on lists. -/
def jsvalBeqList : List JSVal → List JSVal → Bool
  | [], [] => true
  | x :: xs, y :: ys => jsvalBeq x y && jsvalBeqList xs ys
  | _, _ => false

/-- Elementwise `jsvalBeq` on field lists. -/
def jsvalBeqFields : List (String × JSVal) → List (String × JSVal) → Bool
  | [], [] => true
  | (k1, v1) :: xs, (k2, v2) :: ys => k1 == k2 && jsvalBeq v1 v2 && jsvalBeqFields xs ys
  | _, _ => false
end

mutual
theorem jsvalBeq_sound : ∀ (a b : JSVal), jsvalBeq a b = true → a = b
  | .vundefined, b, h => by cases b <;> simp_all [jsvalBeq]
  | .vnull, b, h => by cases b <;> simp_all [jsvalBeq]
  | .vbool x, b, h => by cases b <;> simp_all [jsvalBeq]
  | .vnum x, b, h => by cases b <;> simp_all [jsvalBeq]
  | .vnan, b, h => by cases b <;> simp_all [jsvalBeq]
  | .vstr x, b, h => by cases b <;> simp_all [jsvalBeq]
  | .varr xs, b, h => by
      cases b <;> simp_all [jsvalBeq]
      exact jsvalBeqList_sound xs _ h
  | .vobj xs, b, h => by
      cases b <;> simp_all [jsvalBeq]
      exact jsvalBeqFields_sound xs _ h

theorem jsvalBeqList_sound : ∀ (xs ys : List JSVal), jsvalBeqList xs ys = true → xs = ys
  | [], ys, h => by cases ys <;> simp_all [jsvalBeqList]
  | x :: xs, ys, h => by
      cases ys with
      | nil => simp [jsvalBeqList] at h
      | cons y ys =>
        simp only [jsvalBeqList, Bool.and_eq_true] at h
        rw [jsvalBeq_sound x y h.1, jsvalBeqList_sound xs ys h.2]

theorem jsvalBeqFields_sound :
    ∀ (xs ys : List (String × JSVal)), jsvalBeqFields xs ys = true → xs = ys
  | [], ys, h => by cases ys <;> simp_all [jsvalBeqFields]
  | (k1, v1) :: xs, ys, h => by
      cases ys with
      | nil => simp [jsvalBeqFields] at h
      | cons y ys =>
        obtain ⟨k2, v2⟩ := y
        simp only [jsvalBeqFields, Bool.and_eq_true, beq_iff_eq] at h
        rw [h.1.1, jsvalBeq_sound v1 v2 h.1.2, jsvalBeqFields_sound xs ys h.2]
end

mutual
theorem jsvalBeq_refl : ∀ (a : JSVal), jsvalBeq a a = true
  | .vundefined => rfl
  | .vnull => rfl
  | .vbool x => by simp [jsvalBeq]
  | .vnum x => by simp [jsvalBeq]
  | .vnan => rfl
  | .vstr x => by simp [jsvalBeq]
  | .varr xs => jsvalBeqList_refl xs
  | .vobj xs => jsvalBeqFields_refl xs

theorem jsvalBeqList_refl : ∀ (xs : List JSVal), jsvalBeqList xs xs = true
  | [] => rfl
  | x :: xs => by
      simp only [jsvalBeqList, Bool.and_eq_true]
      exact ⟨jsvalBeq_refl x, jsvalBeqList_refl xs⟩

theorem jsvalBeqFields_refl : ∀ (xs : List (String × JSVal)), jsvalBeqFields xs xs = true
  | [] => rfl
  | (k, v) :: xs => by
      simp only [jsvalBeqFields, Bool.and_eq_true, beq_iff_eq]
      exact ⟨⟨trivial, jsvalBeq_refl v⟩, jsvalBeqFields_refl xs⟩
end

instance : DecidableEq JSVal := fun a b =>
  if h : jsvalBeq a b = true then .isTrue (jsvalBeq_sound a b h)
  else .isFalse (fun he => h (he ▸ jsvalBeq_refl a))

/-- `undefined` and `null` are the two nullish values. -/
def nullish : JSVal → Bool
  | .vundefined => true
  | .vnull => true
  | _ => false

/-- JavaScript truthiness: `undefined`, `null`, `NaN`, `false`, `0` and
`""` are falsy; every object and array is truthy. -/
def truthy : JSVal → Bool
  | .vundefined => false
  | .vnull => false
  | .vbool b => b
  | .vnum n => decide (n ≠ 0)
  | .vnan => false
  | .vstr s => decide (s ≠ "")
  | .varr _ => true
  | .vobj _ => true

/-- First binding of `key` in an object's field list. -/
def jsLookup : List (String × JSVal) → String → Option JSVal
  | [], _ => none
  | (k, v) :: rest, key => if k = key then some v else jsLookup rest key

/-- Property access `v.key` on a non-nullish base: object lookup, else
`undefined` (the named properties the server reads do not exist on
arrays or primitives). -/
def jsMember (v : JSVal) (key : String) : JSVal :=
  match v with
  | .vobj fields => (jsLookup fields key).getD .vundefined
  | _ => .vundefined

/-- Strict property access `v.key`: throws a TypeError when `v` is
nullish. -/
def jsMemberE (v : JSVal) (key : String) : Except String JSVal :=
  if nullish v then .error "TypeError" else .ok (jsMember v key)

/-- Optional chaining `v?.key`: `undefined` when `v` is nullish, never
throws. -/
def jsMemberOpt (v : JSVal) (key : String) : JSVal :=
  if nullish v then .vundefined else jsMember v key

/-- Optional chaining `v?.key` in the exception-sensitive semantics
(it still never throws; compare `jsMemberE`). -/
def jsMemberOptE (v : JSVal) (key : String) : Except String JSVal :=
  if nullish v then .ok .vundefined else jsMemberE v key

/-- Indexing `v[0]` on a non-nullish base: head of an array (or
`undefined` when empty), first character of a string, the `"0"`
property of an object, else `undefined`. -/
def jsIndex0 (v : JSVal) : JSVal :=
  match v with
  | .varr [] => .vundefined
  | .varr (x :: _) => x
  | .vstr s =>
    match s.data with
    | [] => .vundefined
    | c :: _ => .vstr (String.mk [c])
  | .vobj fields => (jsLookup fields "0").getD .vundefined
  | _ => .vundefined

/-- Strict indexing `v[0]`: throws a TypeError when `v` is nullish. -/
def jsIndex0E (v : JSVal) : Except String JSVal :=
  if nullish v then .error "TypeError" else .ok (jsIndex0 v)

/-- The JavaScript `a || b` operator on already-evaluated operands. -/
def jsOr (a b : JSVal) : JSVal :=
  if truthy a then a else b

mutual
/-- JavaScript `String(v)`.  Arrays stringify as their elements joined
with commas, with nullish elements contributing the empty string. -/
def jsToString : JSVal → String
  | .vundefined => "undefined"
  | .vnull => "null"
  | .vbool b => cond b "true" "false"
  | .vnum n => toString n
  | .vnan => "NaN"
  | .vstr s => s
  | .vobj _ => "[object Object]"
  | .varr l => arrToString l

/-- Comma-joined stringification of an array's elements. -/
def arrToString : List JSVal → String
  | [] => ""
  | v :: rest =>
    (match v with
     | .vnull => ""
     | .vundefined => ""
     | w => jsToString w)
    ++ (match rest with
        | [] => ""
        | _ :: _ => "," ++ arrToString rest)
end

/-- JavaScript `Number(s)` on a string, restricted to the integer
domain: whitespace-only is `0`, an integer literal is its value,
anything else is `NaN`. -/
def strToNumber (s : String) : JSVal :=
  if s.trim = "" then .vnum 0
  else
    match s.trim.toInt? with
    | some n => .vnum n
    | none => .vnan

/-- JavaScript `ToNumber`, restricted to the integer domain.  Arrays
coerce through their string form; a plain object stringifies to
`"[object Object]"` and hence coerces to `NaN`. -/
def toNumber : JSVal → JSVal
  | .vnum n => .vnum n
  | .vnan => .vnan
  | .vnull => .vnum 0
  | .vundefined => .vnan
  | .vbool b => .vnum (cond b 1 0)
  | .vstr s => strToNumber s
  | .varr l => strToNumber (arrToString l)
  | .vobj _ => .vnan

/-- JavaScript subtraction `a - b`: numeric coercion of both sides,
`NaN` if either coerces to `NaN`. -/
def jsSub (a b : JSVal) : JSVal :=
  match toNumber a, toNumber b with
  | .vnum x, .vnum y => .vnum (x - y)
  | _, _ => .vnan

/-- `Math.max(0, v)`: numeric coercion, `NaN` absorbing. -/
def mathMax0 (v : JSVal) : JSVal :=
  match toNumber v with
  | .vnum n => .vnum (max 0 n)
  | _ => .vnan

/-- Does the character list start with the given needle? -/
def listStarts : List Char → List Char → Bool
  | [], _ => true
  | _ :: _, [] => false
  | a :: as, b :: bs => a = b && listStarts as bs

/-- Does the character list contain the needle as a contiguous run? -/
def listHasSub (needle : List Char) : List Char → Bool
  | [] => listStarts needle []
  | c :: rest => listStarts needle (c :: rest) || listHasSub needle rest

/-- JavaScript `s.includes(sub)`. -/
def jsIncludes (s sub : String) : Bool :=
  listHasSub sub.data s.data

example : jsIncludes "2025/2026" "2025" = true := by decide
example : jsIncludes "x2025y" "2025" = true := by decide
example : jsIncludes "2024" "2025" = false := by decide
example : jsToString (.vnum 2025) = "2025" := by decide
example : jsToString (.varr [.vnum 1, .vnull, .vstr "a"]) = "1,,a" := by decide

/-! ### The normalizer (`toFantasyStat`, `server.js` lines 15-25) -/

/-- The fixed output record of the server.  Every field except `name`
and `motm` is a JavaScript value produced by the defensive extraction
(`server.js` line 24 builds exactly this object literal). -/
structure FantasyStat where
  name : JSVal
  nonPenaltyGoals : JSVal
  penaltyGoals : JSVal
  assists : JSVal
  minutes : JSVal
  yellowCards : JSVal
  redCards : JSVal
  motm : JSVal
deriving DecidableEq

/-- The per-field extraction pattern of `server.js` lines 18-23:
`fm?.o1?.k1 || fm?.o2?.k2 || 0` (left-associated, as parsed). -/
def fallback2 (fm : JSVal) (o1 k1 o2 k2 : String) : JSVal :=
  jsOr (jsOr (jsMemberOpt (jsMemberOpt fm o1) k1) (jsMemberOpt (jsMemberOpt fm o2) k2))
    (.vnum 0)

/-- `toFantasyStat(name, fm)` of `server.js` lines 15-25. -/
def toFantasyStat (name fm : JSVal) : FantasyStat :=
  let minutes := fallback2 fm "stats" "minutes" "games" "minutes"
  let goalsTotal := fallback2 fm "stats" "goals" "goals" "total"
  let pens := fallback2 fm "stats" "penaltiesScored" "penalty" "scored"
  let assists := fallback2 fm "stats" "assists" "goals" "assists"
  let yellow := fallback2 fm "stats" "yellow" "cards" "yellow"
  let red := fallback2 fm "stats" "red" "cards" "red"
  { name := name
    nonPenaltyGoals := mathMax0 (jsSub goalsTotal pens)
    penaltyGoals := jsOr pens (.vnum 0)
    assists := jsOr assists (.vnum 0)
    minutes := minutes
    yellowCards := jsOr yellow (.vnum 0)
    redCards := jsOr red (.vnum 0)
    motm := .vbool false }

/-- `fm?.o1?.k1 || fm?.o2?.k2 || 0` in the exception-sensitive
semantics, with JavaScript's left-to-right short-circuit evaluation. -/
def fallback2E (fm : JSVal) (o1 k1 o2 k2 : String) : Except String JSVal := do
  let a1 ← jsMemberOptE fm o1
  let v1 ← jsMemberOptE a1 k1
  if truthy v1 then pure v1
  else do
    let a2 ← jsMemberOptE fm o2
    let v2 ← jsMemberOptE a2 k2
    if truthy v2 then pure v2 else pure (.vnum 0)

/-- `toFantasyStat` in the exception-sensitive semantics: each access
may in principle throw, and the proof obligation is that none does. -/
def toFantasyStatE (name fm : JSVal) : Except String FantasyStat := do
  let minutes ← fallback2E fm "stats" "minutes" "games" "minutes"
  let goalsTotal ← fallback2E fm "stats" "goals" "goals" "total"
  let pens ← fallback2E fm "stats" "penaltiesScored" "penalty" "scored"
  let assists ← fallback2E fm "stats" "assists" "goals" "assists"
  let yellow ← fallback2E fm "stats" "yellow" "cards" "yellow"
  let red ← fallback2E fm "stats" "red" "cards" "red"
  pure
    { name := name
      nonPenaltyGoals := mathMax0 (jsSub goalsTotal pens)
      penaltyGoals := jsOr pens (.vnum 0)
      assists := jsOr assists (.vnum 0)
      minutes := minutes
      yellowCards := jsOr yellow (.vnum 0)
      redCards := jsOr red (.vnum 0)
      motm := .vbool false }

/-! ### The batch resolver (`server.js` lines 28-57) -/

/-- One remote call made by the handler, for the call log. -/
inductive ProvCall where
  | search (nm : JSVal)
  | player (id : JSVal)
deriving DecidableEq

/-- The FotMob client: `search(name)` and `player(id)`, each of which
either resolves to a value or throws. -/
structure Provider where
  search : JSVal → Except String JSVal
  player : JSVal → Except String JSVal

/-- `Array.prototype.find` with the callback
`s => String(s.season).includes("2025")` (`server.js` line 44): first
matching element, `undefined` when none matches; the strict access
`s.season` throws on a nullish element. -/
def findSeason : List JSVal → Except String JSVal
  | [] => .ok .vundefined
  | s :: rest =>
    match jsMemberE s "season" with
    | .error e => .error e
    | .ok sv => if jsIncludes (jsToString sv) "2025" then .ok s else findSeason rest

/-- `seasons?.find?.(s => String(s.season).includes("2025"))`: on an
array, run `findSeason`; on a nullish base the optional chain yields
`undefined`; a plain object has no callable `find` unless it carries a
`find` property, in which case the optional call throws a TypeError
(our value domain has no function values); primitives have no `find`
property, so the optional call yields `undefined`. -/
def seasonsFindE (seasons : JSVal) : Except String JSVal :=
  match seasons with
  | .varr l => findSeason l
  | .vnull => .ok .vundefined
  | .vundefined => .ok .vundefined
  | .vobj fields =>
    match jsLookup fields "find" with
    | none => .ok .vundefined
    | some .vnull => .ok .vundefined
    | some .vundefined => .ok .vundefined
    | some _ => .error "TypeError: not a function"
  | _ => .ok .vundefined

/-- The `try` block of the per-name loop after the search has resolved
(`server.js` lines 39-45): take the first candidate, bail out to the
zero record when it has no truthy `id`, fetch the detail blob, select
the season aggregate and normalize.  Returns the record (or the thrown
error) together with the provider calls made after the search. -/
def resolveBody (prov : Provider) (nm results : JSVal) :
    Except String FantasyStat × List ProvCall :=
    let bp := jsMemberOpt results "players"
    let andStep : Except String JSVal :=
      if truthy bp then
        match jsMemberE results "players" with
        | .error e => .error e
        | .ok pl => jsIndex0E pl
      else .ok bp
    match andStep with
    | .error e => (.error e, [.search nm])
    | .ok av =>
      let best := jsOr av .vnull
      if truthy (jsMemberOpt best "id") = false then
        (.ok (toFantasyStat nm .vnull), [.search nm])
      else
        match jsMemberE best "id" with
        | .error e => (.error e, [.search nm])
        | .ok idv =>
          match prov.player idv with
          | .error e => (.error e, [.search nm, .player idv])
          | .ok pdata =>
            match seasonsFindE (jsMemberOpt (jsMemberOpt pdata "stats") "seasons") with
            | .error e => (.error e, [.search nm, .player idv])
            | .ok found =>
              let seasonAgg := jsOr found (jsMemberOpt pdata "stats")
              (.ok (toFantasyStat nm (jsOr seasonAgg pdata)), [.search nm, .player idv])

/-- The whole `try` block of the per-name loop (`server.js` lines
37-45): `await fotmob.search(name)`, then `resolveBody` on its
result. -/
def resolveOneE (prov : Provider) (nm : JSVal) :
    Except String FantasyStat × List ProvCall :=
  match prov.search nm with
  | .error e => (.error e, [.search nm])
  | .ok results => resolveBody prov nm results

theorem resolveOneE_ok (prov : Provider) (nm results : JSVal)
    (h : prov.search nm = .ok results) :
    resolveOneE prov nm = resolveBody prov nm results := by
  unfold resolveOneE
  rw [h]

/-- The per-name loop body with its `catch` (`server.js` lines 36-49):
any thrown error is replaced by the zero record for that name. -/
def resolveOne (prov : Provider) (nm : JSVal) : FantasyStat × List ProvCall :=
  match resolveOneE prov nm with
  | (.ok st, cs) => (st, cs)
  | (.error _, cs) => (toFantasyStat nm .vnull, cs)

/-- The response accumulator `out`: a JavaScript object keyed by
strings, in insertion order. -/
def StatMap := List (String × FantasyStat)

/-- JavaScript object assignment `out[k] = v`: overwrite in place when
the key exists, append otherwise. -/
def jsSet : List (String × FantasyStat) → String → FantasyStat → List (String × FantasyStat)
  | [], k, v => [(k, v)]
  | (k1, v1) :: rest, k, v =>
    if k1 = k then (k, v) :: rest else (k1, v1) :: jsSet rest k v

/-- Lookup in the response object. -/
def mapLookup : List (String × FantasyStat) → String → Option FantasyStat
  | [], _ => none
  | (k1, v1) :: rest, k => if k1 = k then some v1 else mapLookup rest k

/-- The `for (const name of players)` loop (`server.js` lines 35-50):
resolve each name sequentially, assigning `out[name]` (the key is the
name coerced to a string), and accumulate the provider calls. -/
def batchLoop (prov : Provider) :
    List JSVal → List (String × FantasyStat) → List (String × FantasyStat) × List ProvCall
  | [], out => (out, [])
  | nm :: rest, out =>
    let r := resolveOne prov nm
    let rec1 := batchLoop prov rest (jsSet out (jsToString nm) r.1)
    (rec1.1, r.2 ++ rec1.2)

/-- An HTTP response of the endpoint: a JSON stat map or a JSON error
body, each with its status code. -/
inductive Response where
  | json (status : Nat) (body : List (String × FantasyStat))
  | jsonErr (status : Nat) (msg : String)
deriving DecidableEq

/-- The `POST /api/fotmob/player-stats-batch` handler (`server.js`
lines 28-57): read `req.body.players` (a strict access - a nullish
body reaches the outer catch and yields 500), coerce a non-array to
`[]`, reject an empty list with 400 before any remote call, otherwise
run the batch loop and answer 200. -/
def handler (prov : Provider) (body : JSVal) : Response × List ProvCall :=
  match jsMemberE body "players" with
  | .error _ => (.jsonErr 500 "server_error", [])
  | .ok pv =>
    let players := match pv with | .varr l => l | _ => []
    if players.isEmpty then (.jsonErr 400 "players array required", [])
    else
      let r := batchLoop prov players []
      (.json 200 r.1, r.2)

/-! ### Sanity checks against the concrete scenarios of the spec -/

example :
    toFantasyStat (.vstr "Erling Haaland")
      (.vobj [("stats", .vobj [("goals", .vnum 20), ("penaltiesScored", .vnum 5),
        ("assists", .vnum 3), ("minutes", .vnum 1500), ("yellow", .vnum 2),
        ("red", .vnum 0)])]) =
    { name := .vstr "Erling Haaland", nonPenaltyGoals := .vnum 15,
      penaltyGoals := .vnum 5, assists := .vnum 3, minutes := .vnum 1500,
      yellowCards := .vnum 2, redCards := .vnum 0, motm := .vbool false } := by
  decide

example :
    toFantasyStat (.vstr "Unknown Player XYZ") .vnull =
    { name := .vstr "Unknown Player XYZ", nonPenaltyGoals := .vnum 0,
      penaltyGoals := .vnum 0, assists := .vnum 0, minutes := .vnum 0,
      yellowCards := .vnum 0, redCards := .vnum 0, motm := .vbool false } := by
  decide

example :
    handler (Provider.mk (fun _ => .ok (.vobj [("players", .varr [])]))
        (fun _ => .error "unreachable"))
      (.vobj [("players", .varr [.vstr "Unknown Player XYZ"])]) =
    (.json 200 [("Unknown Player XYZ",
      { name := .vstr "Unknown Player XYZ", nonPenaltyGoals := .vnum 0,
        penaltyGoals := .vnum 0, assists := .vnum 0, minutes := .vnum 0,
        yellowCards := .vnum 0, redCards := .vnum 0, motm := .vbool false })],
      [.search (.vstr "Unknown Player XYZ")]) := by
  decide

example :
    handler (Provider.mk (fun _ => .ok .vnull) (fun _ => .ok .vnull))
      (.vobj [("players", .varr [])]) =
    (.jsonErr 400 "players array required", []) := by
  decide

example :
    handler
      (Provider.mk
        (fun _ => .ok (.vobj [("players", .varr [.vobj [("id", .vnum 7)]])]))
        (fun _ => .ok (.vobj [("stats",
          .vobj [("seasons", .varr [.vobj [("season", .vstr "2025/2026"),
            ("stats", .vobj [("goals", .vnum 20), ("penaltiesScored", .vnum 5),
              ("assists", .vnum 3), ("minutes", .vnum 1500), ("yellow", .vnum 2),
              ("red", .vnum 0)])]])])])))
      (.vobj [("players", .varr [.vstr "Erling Haaland"])]) =
    (.json 200 [("Erling Haaland",
      { name := .vstr "Erling Haaland", nonPenaltyGoals := .vnum 15,
        penaltyGoals := .vnum 5, assists := .vnum 3, minutes := .vnum 1500,
        yellowCards := .vnum 2, redCards := .vnum 0, motm := .vbool false })],
      [.search (.vstr "Erling Haaland"), .player (.vnum 7)]) := by
  decide

/-! ### Helper lemmas -/

theorem jsMemberOptE_eq (v : JSVal) (k : String) :
    jsMemberOptE v k = .ok (jsMemberOpt v k) := by
  by_cases h : nullish v = true <;> simp [jsMemberOptE, jsMemberOpt, jsMemberE, h]

theorem fallback2E_eq (fm : JSVal) (o1 k1 o2 k2 : String) :
    fallback2E fm o1 k1 o2 k2 = .ok (fallback2 fm o1 k1 o2 k2) := by
  by_cases h1 : truthy (jsMemberOpt (jsMemberOpt fm o1) k1) = true
  · simp [fallback2E, fallback2, jsMemberOptE_eq, bind, Except.bind, jsOr, h1, pure,
      Except.pure]
  · by_cases h2 : truthy (jsMemberOpt (jsMemberOpt fm o2) k2) = true <;>
      simp [fallback2E, fallback2, jsMemberOptE_eq, bind, Except.bind, jsOr, h1, h2,
        pure, Except.pure]

theorem toFantasyStat_null (v : JSVal) :
    toFantasyStat v .vnull =
      { name := v, nonPenaltyGoals := .vnum 0, penaltyGoals := .vnum 0,
        assists := .vnum 0, minutes := .vnum 0, yellowCards := .vnum 0,
        redCards := .vnum 0, motm := .vbool false } := rfl

theorem jsSet_lookup_self (m : List (String × FantasyStat)) (k : String) (v : FantasyStat) :
    mapLookup (jsSet m k v) k = some v := by
  induction m with
  | nil => simp [jsSet, mapLookup]
  | cons p rest ih =>
    obtain ⟨k1, v1⟩ := p
    by_cases h : k1 = k <;> simp [jsSet, mapLookup, h, ih]

theorem jsSet_lookup_ne (m : List (String × FantasyStat)) (k k1 : String) (v : FantasyStat)
    (h : k1 ≠ k) : mapLookup (jsSet m k1 v) k = mapLookup m k := by
  induction m with
  | nil => simp [jsSet, mapLookup, h]
  | cons p rest ih =>
    obtain ⟨k2, v2⟩ := p
    by_cases h2 : k2 = k1
    · subst h2
      simp [jsSet, mapLookup, h]
    · by_cases h3 : k2 = k
      · subst h3
        simp [jsSet, mapLookup, h2]
      · simp [jsSet, mapLookup, h2, h3, ih]

theorem jsToString_vstr (s : String) : jsToString (.vstr s) = s := by
  simp [jsToString]

theorem batchLoop_lookup_none (prov : Provider) (k : String) :
    ∀ (ns : List JSVal) (out : List (String × FantasyStat)),
      (∀ n ∈ ns, jsToString n ≠ k) →
      mapLookup (batchLoop prov ns out).1 k = mapLookup out k
  | [], _, _ => rfl
  | n :: rest, out, h => by
    have step : (batchLoop prov (n :: rest) out).1
        = (batchLoop prov rest (jsSet out (jsToString n) (resolveOne prov n).1)).1 := rfl
    rw [step,
      batchLoop_lookup_none prov k rest _ (fun m hm => h m (List.mem_cons_of_mem n hm))]
    exact jsSet_lookup_ne out k (jsToString n) (resolveOne prov n).1
      (h n (List.mem_cons_self n rest))

theorem batchLoop_lookup_mem (prov : Provider) (k : String) (nm : JSVal)
    (hk : jsToString nm = k) :
    ∀ (ns : List JSVal) (out : List (String × FantasyStat)),
      (∀ n ∈ ns, jsToString n = k → n = nm) → nm ∈ ns →
      mapLookup (batchLoop prov ns out).1 k = some (resolveOne prov nm).1
  | [], _, _, hmem => absurd hmem (List.not_mem_nil nm)
  | n :: rest, out, hall, hmem => by
    have step : (batchLoop prov (n :: rest) out).1
        = (batchLoop prov rest (jsSet out (jsToString n) (resolveOne prov n).1)).1 := rfl
    rw [step]
    by_cases hr : ∃ m ∈ rest, jsToString m = k
    · obtain ⟨m, hm, hmk⟩ := hr
      have hmn : m = nm := hall m (List.mem_cons_of_mem n hm) hmk
      exact batchLoop_lookup_mem prov k nm hk rest _
        (fun x hx hxk => hall x (List.mem_cons_of_mem n hx) hxk) (hmn ▸ hm)
    · have hnr : ∀ m ∈ rest, jsToString m ≠ k := fun m hm hmk => hr ⟨m, hm, hmk⟩
      have hn : n = nm := by
        rcases List.mem_cons.mp hmem with h1 | h1
        · exact h1.symm
        · exact absurd ⟨nm, h1, hk⟩ hr
      rw [batchLoop_lookup_none prov k rest _ hnr, hn, hk]
      exact jsSet_lookup_self out k (resolveOne prov nm).1

theorem jsSet_keys_of_mem (m : List (String × FantasyStat)) (k : String) (v : FantasyStat)
    (h : k ∈ m.map Prod.fst) : (jsSet m k v).map Prod.fst = m.map Prod.fst := by
  induction m with
  | nil => simp at h
  | cons p rest ih =>
    obtain ⟨k1, v1⟩ := p
    by_cases h1 : k1 = k
    · simp [jsSet, h1]
    · have : k ∈ rest.map Prod.fst := by
        rcases List.mem_cons.mp h with h2 | h2
        · exact absurd h2.symm h1
        · exact h2
      simp [jsSet, h1, ih this]

theorem jsSet_keys_of_not_mem (m : List (String × FantasyStat)) (k : String) (v : FantasyStat)
    (h : k ∉ m.map Prod.fst) : (jsSet m k v).map Prod.fst = m.map Prod.fst ++ [k] := by
  induction m with
  | nil => simp [jsSet]
  | cons p rest ih =>
    obtain ⟨k1, v1⟩ := p
    have h1 : k1 ≠ k := by
      intro he
      exact h (by simp [he])
    have h2 : k ∉ rest.map Prod.fst := fun hc => h (by simp [hc])
    simp [jsSet, h1, ih h2]

theorem jsSet_keys_nodup (m : List (String × FantasyStat)) (k : String) (v : FantasyStat)
    (h : (m.map Prod.fst).Nodup) : ((jsSet m k v).map Prod.fst).Nodup := by
  by_cases hk : k ∈ m.map Prod.fst
  · rw [jsSet_keys_of_mem m k v hk]
    exact h
  · rw [jsSet_keys_of_not_mem m k v hk]
    simp [List.nodup_append, h, List.disjoint_singleton, hk]

theorem batchLoop_keys_nodup (prov : Provider) :
    ∀ (ns : List JSVal) (out : List (String × FantasyStat)),
      ((out.map Prod.fst).Nodup) → (((batchLoop prov ns out).1).map Prod.fst).Nodup
  | [], _, h => h
  | n :: rest, out, h =>
    batchLoop_keys_nodup prov rest (jsSet out (jsToString n) (resolveOne prov n).1)
      (jsSet_keys_nodup out (jsToString n) (resolveOne prov n).1 h)

theorem handler_strings (prov : Provider) (names : List String) (h : names ≠ []) :
    handler prov (.vobj [("players", .varr (names.map JSVal.vstr))]) =
      (.json 200 (batchLoop prov (names.map JSVal.vstr) []).1,
       (batchLoop prov (names.map JSVal.vstr) []).2) := by
  have hp : jsMemberE (.vobj [("players", .varr (names.map JSVal.vstr))]) "players"
      = .ok (.varr (names.map JSVal.vstr)) := by
    simp [jsMemberE, nullish, jsMember, jsLookup]
  have hne : (names.map JSVal.vstr).isEmpty = false := by
    cases names with
    | nil => exact absurd rfl h
    | cons a as => rfl
  simp only [handler, hp, hne]
  simp

/-! ### Claim theorems -/

/-- C7: the normalizer is total: for every name string and every blob -
`null`, an empty object, or an object with arbitrarily missing or
malformed sub-paths - the exception-sensitive rendering of
`toFantasyStat` never throws and returns the fully populated record. -/
theorem normalizer_total (name fm : JSVal) :
    toFantasyStatE name fm = .ok (toFantasyStat name fm) := by
  simp [toFantasyStatE, toFantasyStat, fallback2E_eq, bind, Except.bind, pure, Except.pure]

/-- C3: whenever the per-field fallback selects integer values `g` for
`totalGoals` and `p` for `penaltyGoals`, the normalizer's
`nonPenaltyGoals` equals `max 0 (g - p)`, which is never negative, even
when `p` exceeds `g`. -/
theorem nonPenaltyGoals_clamped (nm fm : JSVal) (g p : Int)
    (hg : fallback2 fm "stats" "goals" "goals" "total" = .vnum g)
    (hp : fallback2 fm "stats" "penaltiesScored" "penalty" "scored" = .vnum p) :
    (toFantasyStat nm fm).nonPenaltyGoals = .vnum (max 0 (g - p)) ∧
      0 ≤ max 0 (g - p) := by
  constructor
  · simp only [toFantasyStat, hg, hp, jsSub, toNumber, mathMax0]
  · exact le_max_left 0 (g - p)

/-- C3 witness: the Haaland-style blob of the spec scenario, with 20
goals of which 5 penalties. -/
theorem nonPenaltyGoals_clamped_witness :
    (toFantasyStat (.vstr "Erling Haaland")
        (.vobj [("stats", .vobj [("goals", .vnum 20), ("penaltiesScored", .vnum 5)])])
      ).nonPenaltyGoals = .vnum (max 0 (20 - 5)) ∧ 0 ≤ max 0 ((20 : Int) - 5) :=
  nonPenaltyGoals_clamped (.vstr "Erling Haaland")
    (.vobj [("stats", .vobj [("goals", .vnum 20), ("penaltiesScored", .vnum 5)])])
    20 5 (by decide) (by decide)

/-- C4 counterexample: in the blob with `stats.goals = 0` and
`goals.total = 7` both paths are present, yet the normalizer selects
the legacy value `7`, not the stats-namespaced value `0`: the fallback
is decided by truthiness, not by presence. -/
theorem fallback_presence_cex :
    jsMember (jsMember (.vobj [("stats", .vobj [("goals", .vnum 0)]),
        ("goals", .vobj [("total", .vnum 7)])]) "stats") "goals" = .vnum 0 ∧
    jsMember (jsMember (.vobj [("stats", .vobj [("goals", .vnum 0)]),
        ("goals", .vobj [("total", .vnum 7)])]) "goals") "total" = .vnum 7 ∧
    fallback2 (.vobj [("stats", .vobj [("goals", .vnum 0)]),
        ("goals", .vobj [("total", .vnum 7)])]) "stats" "goals" "goals" "total"
      = .vnum 7 ∧
    (JSVal.vnum 7 ≠ .vnum 0) := by
  refine ⟨by decide, by decide, by decide, by decide⟩

/-- C4 amended: the stats-namespaced path wins whenever its value is
truthy; the legacy path is used when the stats value is absent or
falsy and its own value is truthy; the default `0` applies when
neither value is truthy. -/
theorem fallback_order (fm : JSVal) (o1 k1 o2 k2 : String) :
    (truthy (jsMemberOpt (jsMemberOpt fm o1) k1) = true →
      fallback2 fm o1 k1 o2 k2 = jsMemberOpt (jsMemberOpt fm o1) k1) ∧
    (truthy (jsMemberOpt (jsMemberOpt fm o1) k1) = false →
      truthy (jsMemberOpt (jsMemberOpt fm o2) k2) = true →
      fallback2 fm o1 k1 o2 k2 = jsMemberOpt (jsMemberOpt fm o2) k2) ∧
    (truthy (jsMemberOpt (jsMemberOpt fm o1) k1) = false →
      truthy (jsMemberOpt (jsMemberOpt fm o2) k2) = false →
      fallback2 fm o1 k1 o2 k2 = .vnum 0) := by
  refine ⟨fun h1 => ?_, fun h1 h2 => ?_, fun h1 h2 => ?_⟩ <;>
    simp [fallback2, jsOr, h1]
  · simp [h2]
  · simp [h2]

/-- C4 amended witness: with a truthy `stats.goals = 4` present along
`goals.total = 9`, the stats-namespaced value wins. -/
theorem fallback_order_witness :
    fallback2 (.vobj [("stats", .vobj [("goals", .vnum 4)]),
        ("goals", .vobj [("total", .vnum 9)])]) "stats" "goals" "goals" "total"
      = jsMemberOpt (jsMemberOpt (.vobj [("stats", .vobj [("goals", .vnum 4)]),
          ("goals", .vobj [("total", .vnum 9)])]) "stats") "goals" :=
  (fallback_order (.vobj [("stats", .vobj [("goals", .vnum 4)]),
      ("goals", .vobj [("total", .vnum 9)])]) "stats" "goals" "goals" "total").1
    (by decide)

/-- C9: the fallback is decided by truthiness, not presence: whenever
the stats-namespaced `goals` value is falsy (in particular when it is
present and equal to `0`), the selected `totalGoals` is the legacy
`goals.total` value, with `0` as final default. -/
theorem fallback_truthiness (fm : JSVal)
    (h : truthy (jsMemberOpt (jsMemberOpt fm "stats") "goals") = false) :
    fallback2 fm "stats" "goals" "goals" "total"
      = jsOr (jsMemberOpt (jsMemberOpt fm "goals") "total") (.vnum 0) := by
  simp [fallback2, jsOr, h]

/-- C9 witness: the claim's own example, `stats.goals = 0` with
`goals.total = 7`, normalizes with `totalGoals = 7`. -/
theorem fallback_truthiness_witness :
    fallback2 (.vobj [("stats", .vobj [("goals", .vnum 0)]),
        ("goals", .vobj [("total", .vnum 7)])]) "stats" "goals" "goals" "total"
      = jsOr (jsMemberOpt (jsMemberOpt (.vobj [("stats", .vobj [("goals", .vnum 0)]),
          ("goals", .vobj [("total", .vnum 7)])]) "goals") "total") (.vnum 0) :=
  fallback_truthiness (.vobj [("stats", .vobj [("goals", .vnum 0)]),
    ("goals", .vobj [("total", .vnum 7)])]) (by decide)

/-- A raw field value that cannot poison the numeric output: either
falsy (so the fallback skips it) or a non-negative integer. -/
def goodVal (v : JSVal) : Bool :=
  !truthy v ||
    (match v with
     | .vnum k => decide (0 ≤ k)
     | _ => false)

/-- A JavaScript value that is a non-negative integer. -/
def nonnegNum (v : JSVal) : Prop :=
  ∃ k : Int, v = .vnum k ∧ 0 ≤ k

theorem goodVal_truthy (v : JSVal) (hg : goodVal v = true) (ht : truthy v = true) :
    ∃ k : Int, v = .vnum k ∧ 0 ≤ k := by
  cases v <;> simp_all [goodVal, truthy]

theorem fallback2_good (fm : JSVal) (o1 k1 o2 k2 : String)
    (h1 : goodVal (jsMemberOpt (jsMemberOpt fm o1) k1) = true)
    (h2 : goodVal (jsMemberOpt (jsMemberOpt fm o2) k2) = true) :
    ∃ k : Int, fallback2 fm o1 k1 o2 k2 = .vnum k ∧ 0 ≤ k := by
  by_cases t1 : truthy (jsMemberOpt (jsMemberOpt fm o1) k1) = true
  · obtain ⟨k, hk, hk0⟩ := goodVal_truthy _ h1 t1
    rw [hk] at t1
    refine ⟨k, ?_, hk0⟩
    simp [fallback2, jsOr, hk, t1]
  · by_cases t2 : truthy (jsMemberOpt (jsMemberOpt fm o2) k2) = true
    · obtain ⟨k, hk, hk0⟩ := goodVal_truthy _ h2 t2
      rw [hk] at t2
      refine ⟨k, ?_, hk0⟩
      simp [fallback2, jsOr, hk, t1, t2]
    · refine ⟨0, ?_, le_refl 0⟩
      simp [fallback2, jsOr, t1, t2]

theorem jsOr_vnum_zero (p : Int) (hp : 0 ≤ p) : nonnegNum (jsOr (.vnum p) (.vnum 0)) := by
  by_cases h : p = 0
  · exact ⟨0, by simp [jsOr, truthy, h], le_refl 0⟩
  · exact ⟨p, by simp [jsOr, truthy, h], hp⟩

/-- C8 counterexample: the code clamps only `nonPenaltyGoals`; a blob
carrying `stats.minutes = -5` yields a negative `minutes` field, so not
every numeric field of the output is a non-negative integer. -/
theorem numeric_fields_negative_cex :
    (toFantasyStat (.vstr "z")
        (.vobj [("stats", .vobj [("minutes", .vnum (-5))])])).minutes = .vnum (-5) ∧
      ((-5 : Int) < 0) := by
  refine ⟨by decide, by decide⟩

/-- C8 amended: whenever every raw value probed by the six fallbacks is
either falsy or a non-negative integer, all six numeric output fields
are non-negative integers (`nonPenaltyGoals` is additionally clamped at
zero even when the penalties exceed the total goals). -/
theorem numeric_fields_nonneg (nm fm : JSVal)
    (h1 : goodVal (jsMemberOpt (jsMemberOpt fm "stats") "minutes") = true)
    (h2 : goodVal (jsMemberOpt (jsMemberOpt fm "games") "minutes") = true)
    (h3 : goodVal (jsMemberOpt (jsMemberOpt fm "stats") "goals") = true)
    (h4 : goodVal (jsMemberOpt (jsMemberOpt fm "goals") "total") = true)
    (h5 : goodVal (jsMemberOpt (jsMemberOpt fm "stats") "penaltiesScored") = true)
    (h6 : goodVal (jsMemberOpt (jsMemberOpt fm "penalty") "scored") = true)
    (h7 : goodVal (jsMemberOpt (jsMemberOpt fm "stats") "assists") = true)
    (h8 : goodVal (jsMemberOpt (jsMemberOpt fm "goals") "assists") = true)
    (h9 : goodVal (jsMemberOpt (jsMemberOpt fm "stats") "yellow") = true)
    (h10 : goodVal (jsMemberOpt (jsMemberOpt fm "cards") "yellow") = true)
    (h11 : goodVal (jsMemberOpt (jsMemberOpt fm "stats") "red") = true)
    (h12 : goodVal (jsMemberOpt (jsMemberOpt fm "cards") "red") = true) :
    nonnegNum (toFantasyStat nm fm).nonPenaltyGoals ∧
    nonnegNum (toFantasyStat nm fm).penaltyGoals ∧
    nonnegNum (toFantasyStat nm fm).assists ∧
    nonnegNum (toFantasyStat nm fm).minutes ∧
    nonnegNum (toFantasyStat nm fm).yellowCards ∧
    nonnegNum (toFantasyStat nm fm).redCards := by
  obtain ⟨km, hkm, hkm0⟩ := fallback2_good fm "stats" "minutes" "games" "minutes" h1 h2
  obtain ⟨kg, hkg, hkg0⟩ := fallback2_good fm "stats" "goals" "goals" "total" h3 h4
  obtain ⟨kp, hkp, hkp0⟩ := fallback2_good fm "stats" "penaltiesScored" "penalty" "scored" h5 h6
  obtain ⟨ka, hka, hka0⟩ := fallback2_good fm "stats" "assists" "goals" "assists" h7 h8
  obtain ⟨ky, hky, hky0⟩ := fallback2_good fm "stats" "yellow" "cards" "yellow" h9 h10
  obtain ⟨kr, hkr, hkr0⟩ := fallback2_good fm "stats" "red" "cards" "red" h11 h12
  refine ⟨?_, ?_, ?_, ?_, ?_, ?_⟩
  · refine ⟨max 0 (kg - kp), ?_, le_max_left 0 (kg - kp)⟩
    simp only [toFantasyStat, hkg, hkp, jsSub, toNumber, mathMax0]
  · simp only [toFantasyStat, hkp]
    exact jsOr_vnum_zero kp hkp0
  · simp only [toFantasyStat, hka]
    exact jsOr_vnum_zero ka hka0
  · simp only [toFantasyStat, hkm]
    exact ⟨km, rfl, hkm0⟩
  · simp only [toFantasyStat, hky]
    exact jsOr_vnum_zero ky hky0
  · simp only [toFantasyStat, hkr]
    exact jsOr_vnum_zero kr hkr0

/-- C8 amended witness: a consistent blob with 10 goals, 2 penalties,
900 minutes, 1 yellow and no red card. -/
theorem numeric_fields_nonneg_witness :
    nonnegNum (toFantasyStat (.vstr "w")
      (.vobj [("stats", .vobj [("goals", .vnum 10), ("penaltiesScored", .vnum 2),
        ("assists", .vnum 4), ("minutes", .vnum 900), ("yellow", .vnum 1),
        ("red", .vnum 0)])])).nonPenaltyGoals ∧
    nonnegNum (toFantasyStat (.vstr "w")
      (.vobj [("stats", .vobj [("goals", .vnum 10), ("penaltiesScored", .vnum 2),
        ("assists", .vnum 4), ("minutes", .vnum 900), ("yellow", .vnum 1),
        ("red", .vnum 0)])])).penaltyGoals ∧
    nonnegNum (toFantasyStat (.vstr "w")
      (.vobj [("stats", .vobj [("goals", .vnum 10), ("penaltiesScored", .vnum 2),
        ("assists", .vnum 4), ("minutes", .vnum 900), ("yellow", .vnum 1),
        ("red", .vnum 0)])])).assists ∧
    nonnegNum (toFantasyStat (.vstr "w")
      (.vobj [("stats", .vobj [("goals", .vnum 10), ("penaltiesScored", .vnum 2),
        ("assists", .vnum 4), ("minutes", .vnum 900), ("yellow", .vnum 1),
        ("red", .vnum 0)])])).minutes ∧
    nonnegNum (toFantasyStat (.vstr "w")
      (.vobj [("stats", .vobj [("goals", .vnum 10), ("penaltiesScored", .vnum 2),
        ("assists", .vnum 4), ("minutes", .vnum 900), ("yellow", .vnum 1),
        ("red", .vnum 0)])])).yellowCards ∧
    nonnegNum (toFantasyStat (.vstr "w")
      (.vobj [("stats", .vobj [("goals", .vnum 10), ("penaltiesScored", .vnum 2),
        ("assists", .vnum 4), ("minutes", .vnum 900), ("yellow", .vnum 1),
        ("red", .vnum 0)])])).redCards :=
  numeric_fields_nonneg (.vstr "w")
    (.vobj [("stats", .vobj [("goals", .vnum 10), ("penaltiesScored", .vnum 2),
      ("assists", .vnum 4), ("minutes", .vnum 900), ("yellow", .vnum 1),
      ("red", .vnum 0)])])
    (by decide) (by decide) (by decide) (by decide) (by decide) (by decide)
    (by decide) (by decide) (by decide) (by decide) (by decide) (by decide)

/-- C10: the request's `season` field is never read: two requests whose
bodies agree on the `players` field (whatever their `season` fields
hold, or whether they hold one at all) receive identical responses,
with identical provider calls, under every provider behavior. -/
theorem season_never_read (prov : Provider) (b1 b2 : JSVal)
    (h : jsMemberE b1 "players" = jsMemberE b2 "players") :
    handler prov b1 = handler prov b2 := by
  unfold handler
  rw [h]

/-- C10 witness: the same one-name request with `season` 2024 and
`season` 2031 produce the same response. -/
theorem season_never_read_witness :
    handler (Provider.mk (fun _ => .error "e") (fun _ => .error "e"))
      (.vobj [("players", .varr [.vstr "x"]), ("season", .vnum 2024)]) =
    handler (Provider.mk (fun _ => .error "e") (fun _ => .error "e"))
      (.vobj [("players", .varr [.vstr "x"]), ("season", .vnum 2031)]) :=
  season_never_read (Provider.mk (fun _ => .error "e") (fun _ => .error "e"))
    (.vobj [("players", .varr [.vstr "x"]), ("season", .vnum 2024)])
    (.vobj [("players", .varr [.vstr "x"]), ("season", .vnum 2031)])
    (by rfl)

/-- C5: a request whose (non-nullish) body lacks a `players` field,
carries a non-array `players`, or carries an empty `players` array is
answered `400 {error: "players array required"}` and triggers no
provider call at all (the call log is empty), under every provider. -/
theorem validation_no_calls (prov : Provider) (body : JSVal)
    (hnn : nullish body = false)
    (hbad : ∀ l, jsMember body "players" = .varr l → l = []) :
    handler prov body = (.jsonErr 400 "players array required", []) := by
  have hm : jsMemberE body "players" = .ok (jsMember body "players") := by
    simp [jsMemberE, hnn]
  unfold handler
  rw [hm]
  rcases hv : jsMember body "players" with _ | _ | b | n | _ | s | l | fs
  · rfl
  · rfl
  · rfl
  · rfl
  · rfl
  · rfl
  · have : l = [] := hbad l hv
    subst this
    rfl
  · rfl

/-- C5 witness: a body whose `players` field is a string. -/
theorem validation_no_calls_witness :
    handler (Provider.mk (fun _ => .error "e") (fun _ => .error "e"))
      (.vobj [("players", .vstr "oops")]) = (.jsonErr 400 "players array required", []) :=
  validation_no_calls (Provider.mk (fun _ => .error "e") (fun _ => .error "e"))
    (.vobj [("players", .vstr "oops")]) (by decide)
    (fun l hl => by simp [jsMember, jsLookup] at hl)

/-- C6: normalizing any name against a `null` blob yields the uniform
zero record with the name echoed and `motm = false`; and the very same
record is produced by the resolver for a name whose search yields no
candidate (`players` empty) or a first candidate without a truthy
identifier. -/
theorem zero_record_uniform (s : String) (prov : Provider) :
    toFantasyStat (.vstr s) .vnull =
      { name := .vstr s, nonPenaltyGoals := .vnum 0, penaltyGoals := .vnum 0,
        assists := .vnum 0, minutes := .vnum 0, yellowCards := .vnum 0,
        redCards := .vnum 0, motm := .vbool false } ∧
    (∀ results, prov.search (.vstr s) = .ok results →
      (jsMemberOpt results "players" = .varr [] ∨
        (∃ c rest, jsMemberOpt results "players" = .varr (c :: rest) ∧
          truthy (jsMemberOpt c "id") = false)) →
      (resolveOne prov (.vstr s)).1 =
        { name := .vstr s, nonPenaltyGoals := .vnum 0, penaltyGoals := .vnum 0,
          assists := .vnum 0, minutes := .vnum 0, yellowCards := .vnum 0,
          redCards := .vnum 0, motm := .vbool false }) := by
  refine ⟨toFantasyStat_null (.vstr s), ?_⟩
  intro results hsearch hcase
  have hnn : nullish results = false := by
    cases results <;>
      first
        | rfl
        | (rcases hcase with hc | ⟨c, rest, hc, _⟩ <;> simp [jsMemberOpt, nullish] at hc)
  have hres : resolveOneE prov (.vstr s)
      = (.ok (toFantasyStat (.vstr s) .vnull), [.search (.vstr s)]) := by
    rw [resolveOneE_ok prov (.vstr s) results hsearch]
    rcases hcase with hc | ⟨c, rest, hc, hid⟩
    · have hme : jsMemberE results "players" = .ok (.varr []) := by
        rw [← hc]
        simp [jsMemberE, jsMemberOpt, hnn]
      unfold resolveBody
      rw [hc, hme]
      rfl
    · have hme : jsMemberE results "players" = .ok (.varr (c :: rest)) := by
        rw [← hc]
        simp [jsMemberE, jsMemberOpt, hnn]
      have t1 : truthy (.varr (c :: rest)) = true := rfl
      have t2 : jsIndex0E (.varr (c :: rest)) = .ok c := rfl
      by_cases ht : truthy c = true
      · have hbest : jsOr c .vnull = c := by simp [jsOr, ht]
        unfold resolveBody
        rw [hc, hme]
        simp [t1, t2, hbest, hid]
      · have ht2 : truthy c = false := by
          cases hht : truthy c
          · rfl
          · exact absurd hht ht
        have hbest : jsOr c .vnull = .vnull := by simp [jsOr, ht2]
        have t3 : truthy (jsMemberOpt JSVal.vnull "id") = false := rfl
        unfold resolveBody
        rw [hc, hme]
        simp [t1, t2, hbest, t3]
  unfold resolveOne
  rw [hres]
  exact toFantasyStat_null (.vstr s)

/-- C6 witness: a provider whose search returns an empty candidate
list yields the zero record for "Ghost". -/
theorem zero_record_uniform_witness :
    (resolveOne (Provider.mk (fun _ => .ok (.vobj [("players", .varr [])]))
        (fun _ => .error "down")) (.vstr "Ghost")).1 =
      { name := .vstr "Ghost", nonPenaltyGoals := .vnum 0, penaltyGoals := .vnum 0,
        assists := .vnum 0, minutes := .vnum 0, yellowCards := .vnum 0,
        redCards := .vnum 0, motm := .vbool false } :=
  (zero_record_uniform "Ghost" (Provider.mk (fun _ => .ok (.vobj [("players", .varr [])]))
      (fun _ => .error "down"))).2
    (.vobj [("players", .varr [])]) rfl (Or.inl (by decide))

/-- C1: for every non-empty batch of names and every provider behavior
(including searches or detail fetches that throw, and ones that return
malformed data), the endpoint answers 200 with one record per
requested name; a name whose resolution throws gets the all-zero
record with its name echoed, and no name is omitted. -/
theorem batch_isolation (prov : Provider) (names : List String) (h : names ≠ []) :
    ∃ out,
      (handler prov (.vobj [("players", .varr (names.map JSVal.vstr))])).1
        = .json 200 out ∧
      (∀ nm ∈ names, mapLookup out nm = some (resolveOne prov (.vstr nm)).1) ∧
      (∀ nm ∈ names, (∃ e, (resolveOneE prov (.vstr nm)).1 = .error e) →
        mapLookup out nm = some
          { name := .vstr nm, nonPenaltyGoals := .vnum 0, penaltyGoals := .vnum 0,
            assists := .vnum 0, minutes := .vnum 0, yellowCards := .vnum 0,
            redCards := .vnum 0, motm := .vbool false }) := by
  have hmap : ∀ nm ∈ names,
      mapLookup (batchLoop prov (names.map JSVal.vstr) []).1 nm
        = some (resolveOne prov (.vstr nm)).1 := by
    intro nm hnm
    refine batchLoop_lookup_mem prov nm (.vstr nm) (jsToString_vstr nm)
      (names.map JSVal.vstr) [] ?_ ?_
    · intro n hn hnk
      obtain ⟨t, ht, rfl⟩ := List.mem_map.mp hn
      rw [jsToString_vstr t] at hnk
      rw [hnk]
    · exact List.mem_map_of_mem JSVal.vstr hnm
  refine ⟨(batchLoop prov (names.map JSVal.vstr) []).1, ?_, hmap, ?_⟩
  · rw [handler_strings prov names h]
  · intro nm hnm hfail
    obtain ⟨e, he⟩ := hfail
    have hzero : (resolveOne prov (.vstr nm)).1 = toFantasyStat (.vstr nm) .vnull := by
      unfold resolveOne
      rcases hp : resolveOneE prov (.vstr nm) with ⟨fst, cs⟩
      rw [hp] at he
      cases fst with
      | ok st => simp at he
      | error e2 => rfl
    rw [hmap nm hnm, hzero, toFantasyStat_null]

/-- C1 witness: a three-name batch against a provider whose every call
throws still gets a 200 response keyed by all three names. -/
theorem batch_isolation_witness :
    ∃ out,
      (handler (Provider.mk (fun _ => .error "boom") (fun _ => .error "boom"))
          (.vobj [("players", .varr ((["a", "b", "c"] : List String).map JSVal.vstr))])).1
        = .json 200 out ∧
      (∀ nm ∈ (["a", "b", "c"] : List String),
        mapLookup out nm = some (resolveOne (Provider.mk (fun _ => .error "boom")
          (fun _ => .error "boom")) (.vstr nm)).1) ∧
      (∀ nm ∈ (["a", "b", "c"] : List String),
        (∃ e, (resolveOneE (Provider.mk (fun _ => .error "boom")
            (fun _ => .error "boom")) (.vstr nm)).1 = .error e) →
        mapLookup out nm = some
          { name := .vstr nm, nonPenaltyGoals := .vnum 0, penaltyGoals := .vnum 0,
            assists := .vnum 0, minutes := .vnum 0, yellowCards := .vnum 0,
            redCards := .vnum 0, motm := .vbool false }) :=
  batch_isolation (Provider.mk (fun _ => .error "boom") (fun _ => .error "boom"))
    ["a", "b", "c"] (by decide)

/-- C2: for every non-empty list of names, the response maps exactly
the set of input names - every input name is a key, no other key
occurs, the keys are pairwise distinct (duplicates collapse to one
key), and each key holds the record the resolver computes for that
name (the provider being a function, this is the record of the last
occurrence as well as of every other). -/
theorem batch_keyset (prov : Provider) (names : List String) (h : names ≠ []) :
    ∃ out,
      (handler prov (.vobj [("players", .varr (names.map JSVal.vstr))])).1
        = .json 200 out ∧
      (∀ k ∈ names, mapLookup out k = some (resolveOne prov (.vstr k)).1) ∧
      (∀ k : String, k ∉ names → mapLookup out k = none) ∧
      (out.map Prod.fst).Nodup := by
  refine ⟨(batchLoop prov (names.map JSVal.vstr) []).1, ?_, ?_, ?_, ?_⟩
  · rw [handler_strings prov names h]
  · intro nm hnm
    refine batchLoop_lookup_mem prov nm (.vstr nm) (jsToString_vstr nm)
      (names.map JSVal.vstr) [] ?_ ?_
    · intro n hn hnk
      obtain ⟨t, ht, rfl⟩ := List.mem_map.mp hn
      rw [jsToString_vstr t] at hnk
      rw [hnk]
    · exact List.mem_map_of_mem JSVal.vstr hnm
  · intro k hk
    rw [batchLoop_lookup_none prov k (names.map JSVal.vstr) [] ?_]
    · rfl
    · intro n hn
      obtain ⟨t, ht, rfl⟩ := List.mem_map.mp hn
      rw [jsToString_vstr t]
      exact fun he => hk (he ▸ ht)
  · exact batchLoop_keys_nodup prov (names.map JSVal.vstr) [] (by simp)

/-- C2 witness: the duplicated batch `["x", "x", "y"]` collapses to the
two keys `x` and `y`. -/
theorem batch_keyset_witness :
    ∃ out,
      (handler (Provider.mk (fun _ => .ok .vnull) (fun _ => .ok .vnull))
          (.vobj [("players", .varr ((["x", "x", "y"] : List String).map JSVal.vstr))])).1
        = .json 200 out ∧
      (∀ k ∈ (["x", "x", "y"] : List String),
        mapLookup out k = some (resolveOne (Provider.mk (fun _ => .ok .vnull)
          (fun _ => .ok .vnull)) (.vstr k)).1) ∧
      (∀ k : String, k ∉ (["x", "x", "y"] : List String) → mapLookup out k = none) ∧
      (out.map Prod.fst).Nodup :=
  batch_keyset (Provider.mk (fun _ => .ok .vnull) (fun _ => .ok .vnull))
    ["x", "x", "y"] (by decide)
